import Mathlib

/-!
Verification of `src/src/managers/TextTicketManager.js` (DisGroup-Development,
text-ticket manager). The manager keeps an in-memory list of raw ticket
records, an index from ticket number to ticket entity, and persists the full
record list to a JSON file on every mutation.

Embedding conventions:
* JS object references to raw records are modelled as indices into a `heap`
  list of record values; `this._rawTickets` is a list of such references, so
  in-place mutation of a record is `List.set` on the heap, and JS reference
  equality is index equality.
* Remote calls and file writes are returned as an explicit effect list; a JS
  `throw` is `Except.error`. The `TypeError` the runtime raises when a
  property of `null` is accessed is the `typeError` case.
* The JS code stores `number` as the decimal string of the numeric ticket
  number and all arithmetic in the manager is on its numeric value, so it is
  carried here as a `Nat`.
-/

namespace DisGroupDev

/-- One persisted ticket record (`RawTextTicketData` in
`src/src/managers/TextTicketManager.js`, lines 7-15). -/
structure RawTextTicketData where
  channelId : String
  creatorId : String
  guildId : String
  number : Nat
  participants : List String
  status : String
deriving Repr, DecidableEq, Inhabited

/-- Modelled from the spec: the error taxonomy of §7 (`src/src/utils/Errors.js`
is required by the manager but is not under `src/`). `typeError` stands for
the TypeError the JS runtime throws when a property of `null`/`undefined` is
accessed. -/
inductive JsError where
  | invalidClient
  | missingOptions
  | notReady
  | invalidTicket
  | notResolvable
  | invalidCategory
  | typeError
deriving Repr, DecidableEq

/-- A permission overwrite entry as pushed onto `ticketPermissions`. -/
structure PermissionOverwrite where
  id : String
  allow : List String
  deny : List String
deriving Repr, DecidableEq

/-- The permission-name list repeated throughout the manager. -/
def fullTicketPermissionList : List String :=
  ["VIEW_CHANNEL", "SEND_MESSAGES", "ATTACH_FILES", "ADD_REACTIONS", "READ_MESSAGE_HISTORY"]

/-- A guild as far as the manager reads it: its id and its everyone role. -/
structure Guild where
  id : String
  everyoneRoleId : String
deriving Repr, DecidableEq

/-- A channel as far as the manager reads it: its id and its type string. -/
structure Channel where
  id : String
  type : String
deriving Repr, DecidableEq

/-- The external discord.js client surface the manager calls: resolution of
guilds, users, members, channels and roles by id (`null` on miss is `none`),
and the id the remote side assigns to a newly created channel. -/
structure Env where
  resolveGuild : String → Option Guild
  resolveUser : String → Option String
  resolveMember : Guild → String → Option String
  resolveChannel : Guild → String → Option Channel
  resolveRole : Guild → String → Option String
  newChannelId : String

/-- `for(const staffRole of this.options.staffRoles ?? []) { ... }`:
each staff role id that resolves contributes a full-access overwrite. -/
def staffPermissionOverwrites (env : Env) (guild : Guild) (staffRoles : List String) :
    List PermissionOverwrite :=
  (staffRoles.filterMap (env.resolveRole guild)).map
    (fun roleId => { id := roleId, allow := fullTicketPermissionList, deny := [] })

/-- The manager options after construction (`TextTicketManagerOptions`,
lines 17-24; `closedParentId` has already been defaulted to `parentId` by
line 60, so it is not optional here). -/
structure ManagerOptions where
  channelTopic : Option String
  closedParentId : String
  parentId : String
  staffRoles : Option (List String)
  storage : String
deriving Repr, DecidableEq

/-- One remote call, file write or event emission performed by an operation. -/
inductive Effect where
  | channelCreate (name : String) (parent : String) (topic : String)
      (perms : List PermissionOverwrite)
  | channelEdit (channelId : String) (name : String) (parent : Option String)
      (perms : Option (List PermissionOverwrite))
  | channelDelete (channelId : String)
  | fileWrite (records : List RawTextTicketData)
  | rawFileWrite (content : String)
  | emitEvent (event : String)
deriving Repr, DecidableEq

/-- The mutable state of a `TextTicketManager`: the heap of allocated record
objects (index = JS reference), `this._rawTickets` as references into the
heap, `this.tickets` (a `Discord.Collection`, i.e. an insertion-ordered map
from ticket number to entity) as an association list from number to the
entity's record reference, the parsed content of the storage file, the
`ready` flag and the options. -/
structure ManagerState where
  heap : List RawTextTicketData
  rawTickets : List Nat
  tickets : List (Nat × Nat)
  store : List RawTextTicketData
  ready : Bool
  options : ManagerOptions
deriving Repr, DecidableEq

/-- `JSON.stringify(this._rawTickets, ...)` serialises the current list of
record objects; this is the parsed content the store file holds after a
`_saveRawTickets`. -/
def ManagerState.currentRecords (st : ManagerState) : List RawTextTicketData :=
  st.rawTickets.map (fun r => st.heap.getD r default)

/-- Modelled from the spec: the `TextTicket` entity
(`src/src/structures/TextTicket.js` is required by the manager but is not
under `src/`) wraps one raw record (its `_data` field) plus the owning
manager, and its accessors (`number`, `channelId`, `creatorId`, `guildId`,
`guild`, `channel`) read the wrapped record and resolve through the external
client. In this embedding an entity holds the heap reference of its record. -/
structure TextTicket where
  dataRef : Nat
deriving Repr, DecidableEq

/-- `ticket._data`, read through the manager state. -/
def TextTicket.dataIn (st : ManagerState) (t : TextTicket) : RawTextTicketData :=
  st.heap.getD t.dataRef default

/-- `ticket.number`. -/
def TextTicket.numberIn (st : ManagerState) (t : TextTicket) : Nat :=
  (t.dataIn st).number

/-- `Discord.Collection.set`: replace the value of an existing key in place,
otherwise append the new entry. -/
def collSet (m : List (Nat × Nat)) (k v : Nat) : List (Nat × Nat) :=
  if m.any (fun p => p.1 == k) then
    m.map (fun p => if p.1 == k then (k, v) else p)
  else
    m ++ [(k, v)]

/-- `Discord.Collection.get`. -/
def collGet (m : List (Nat × Nat)) (k : Nat) : Option Nat :=
  (m.find? (fun p => p.1 == k)).map (fun p => p.2)

/-- `Discord.Collection.delete`. -/
def collDelete (m : List (Nat × Nat)) (k : Nat) : List (Nat × Nat) :=
  m.filter (fun p => !(p.1 == k))

/-- JS `Array.prototype.indexOf` on the reference list (`none` models the
result `-1`; reference equality is index equality in this embedding). -/
def jsIndexOf (l : List Nat) (x : Nat) : Option Nat :=
  match l with
  | [] => none
  | y :: ys => if y = x then some 0 else (jsIndexOf ys x).map (fun i => i + 1)

/-- Truthiness and `instanceof TextTicket` status of an arbitrary JS value
passed as the `ticket` argument. -/
structure JsArg where
  truthy : Bool
  isTextTicketInstance : Bool
deriving Repr, DecidableEq

/-- JS `!v`: a Boolean primitive, hence never an instance of any class. -/
def jsNot (v : JsArg) : JsArg :=
  { truthy := !v.truthy, isTextTicketInstance := false }

/-- JS `v instanceof TextTicket`. -/
def jsInstanceofTextTicket (v : JsArg) : Bool :=
  v.isTextTicketInstance

/-- The guard condition `!ticket instanceof TextTicket` of `closeTicket`
(line 176), `deleteTicket` (line 306), `renameTicket` (line 337) and
`reopenTicket` (line 361): unary `!` binds tighter than `instanceof`, so the
negation applies to `ticket` and the `instanceof` test is applied to a
Boolean. -/
def invalidTicketGuardFires (ticket : JsArg) : Bool :=
  jsInstanceofTextTicket (jsNot ticket)

/-- Result of one manager operation: the JS return value or thrown error, the
manager state afterwards, and the remote calls / file writes / emitted events
performed, in order. -/
structure OpResult (α : Type) where
  result : Except JsError α
  state : ManagerState
  effects : List Effect

/-- `checkDoubleTickets(guildId, userId)` (lines 162-166):
`!!this._rawTickets.find(rawTicket => rawTicket.guildId === guildId &&
rawTicket.creatorId === userId)`. The method performs no `ready` check. -/
def checkDoubleTickets (st : ManagerState) (guildId userId : String) : Bool :=
  (st.rawTickets.find? (fun r =>
    (st.heap.getD r default).guildId == guildId &&
    (st.heap.getD r default).creatorId == userId)).isSome

/-- `checkDoubleTickets` as an operation result: the method body is a single
`return` statement with no throw path, no state change and no I/O. -/
def checkDoubleTicketsOp (st : ManagerState) (guildId userId : String) : OpResult Bool :=
  ⟨.ok (checkDoubleTickets st guildId userId), st, []⟩

/-- Descending insertion by `number`: one sorted permutation, modelling the
effect of `guildTickets.sort((a, b) => b.number - a.number)` (line 246). -/
def insertDescByNumber (x : RawTextTicketData) :
    List RawTextTicketData → List RawTextTicketData
  | [] => [x]
  | y :: ys =>
    if y.number ≤ x.number then x :: y :: ys else y :: insertDescByNumber x ys

/-- `guildTickets.sort((a, b) => b.number - a.number)`. -/
def sortDescByNumber (l : List RawTextTicketData) : List RawTextTicketData :=
  l.foldr insertDescByNumber []

/-- The `number` of the head record (`sorted[0].number`); `0` for the empty
list. -/
def headNumber : List RawTextTicketData → Nat
  | [] => 0
  | r :: _ => r.number

/-- The maximum of the `number` fields of a record list (`0` when empty). -/
def maxNumber (l : List RawTextTicketData) : Nat :=
  l.foldr (fun r m => max r.number m) 0

/-- `createTicket(guild, user)` (lines 228-295). Note the order of lines
232-236: `resolvedGuild.members.resolve(resolvedUser)` is evaluated before
the `if(!resolvedGuild || ...)` check, so a `null` guild raises a TypeError
there; `members.resolve(null)` returns `null`. -/
def createTicket (env : Env) (st : ManagerState) (guild user : String) :
    OpResult TextTicket :=
  if st.ready = false then ⟨.error .notReady, st, []⟩ else
  match env.resolveGuild guild with
  | none => ⟨.error .typeError, st, []⟩
  | some resolvedGuild =>
    match env.resolveUser user,
          (env.resolveUser user).bind (env.resolveMember resolvedGuild) with
    | some resolvedUser, some resolvedMember =>
      match env.resolveChannel resolvedGuild st.options.parentId with
      | none => ⟨.error .invalidCategory, st, []⟩
      | some ticketCategory =>
        if ticketCategory.type ≠ "GUILD_CATEGORY" then ⟨.error .invalidCategory, st, []⟩ else
        let guildTickets :=
          st.currentRecords.filter (fun r => r.guildId == resolvedGuild.id)
        let ticketNumber :=
          if guildTickets.length > 0 then headNumber (sortDescByNumber guildTickets) else 0
        let newTicketNumber := ticketNumber + 1
        let ticketPermissions :=
          { id := resolvedMember, allow := fullTicketPermissionList, deny := [] } ::
          { id := resolvedGuild.everyoneRoleId, allow := [], deny := ["VIEW_CHANNEL"] } ::
          staffPermissionOverwrites env resolvedGuild (st.options.staffRoles.getD [])
        let newRecord : RawTextTicketData :=
          { channelId := env.newChannelId
            creatorId := resolvedUser
            guildId := resolvedGuild.id
            number := newTicketNumber
            participants := []
            status := "open" }
        let newRef := st.heap.length
        let st2 := { st with
          heap := st.heap ++ [newRecord]
          rawTickets := st.rawTickets ++ [newRef] }
        let stored := st2.currentRecords
        ⟨.ok ⟨newRef⟩,
         { st2 with store := stored, tickets := collSet st2.tickets newTicketNumber newRef },
         [.channelCreate ("ticket-" ++ toString newTicketNumber) ticketCategory.id
            (st.options.channelTopic.getD "") ticketPermissions,
          .fileWrite stored,
          .emitEvent "ticketCreated"]⟩
    | _, _ => ⟨.error .notResolvable, st, []⟩

/-- `closeTicket(ticket)` (lines 172-220). The record is mutated in place
(`ticket._data.status = 'closed'`); the write-back
`this._rawTickets[this._rawTickets.indexOf(ticket._data)] = ticket._data`
stores the same reference at its own index (and `arr[-1] = x` leaves the
array elements unchanged when the reference is absent). -/
def closeTicket (env : Env) (st : ManagerState) (ticketArg : JsArg)
    (ticket : TextTicket) : OpResult TextTicket :=
  if st.ready = false then ⟨.error .notReady, st, []⟩ else
  if invalidTicketGuardFires ticketArg then ⟨.error .invalidTicket, st, []⟩ else
  match env.resolveGuild (ticket.dataIn st).guildId with
  | none => ⟨.error .typeError, st, []⟩
  | some guild =>
    match env.resolveChannel guild st.options.closedParentId with
    | none => ⟨.error .invalidCategory, st, []⟩
    | some closedTicketCategory =>
      match env.resolveChannel guild (ticket.dataIn st).channelId with
      | none => ⟨.error .typeError, st, []⟩
      | some channel =>
        let d := ticket.dataIn st
        let ticketPermissions :=
          { id := d.creatorId, allow := [], deny := fullTicketPermissionList } ::
          { id := guild.everyoneRoleId, allow := [], deny := ["VIEW_CHANNEL"] } ::
          staffPermissionOverwrites env guild (st.options.staffRoles.getD [])
        let raw2 :=
          match jsIndexOf st.rawTickets ticket.dataRef with
          | some i => st.rawTickets.set i ticket.dataRef
          | none => st.rawTickets
        let st2 := { st with
          heap := st.heap.set ticket.dataRef { d with status := "closed" }
          tickets := collSet st.tickets d.number ticket.dataRef
          rawTickets := raw2 }
        let stored := st2.currentRecords
        ⟨.ok ⟨ticket.dataRef⟩,
         { st2 with store := stored },
         [.channelEdit channel.id ("closed-" ++ toString d.number)
            (some closedTicketCategory.id) (some ticketPermissions),
          .fileWrite stored,
          .emitEvent "ticketClosed"]⟩

/-- `reopenTicket(ticket)` (lines 357-400): mirror of close, with the
category required to resolve to a `GUILD_CATEGORY` channel and status flipped
back to `"open"`. -/
def reopenTicket (env : Env) (st : ManagerState) (ticketArg : JsArg)
    (ticket : TextTicket) : OpResult TextTicket :=
  if st.ready = false then ⟨.error .notReady, st, []⟩ else
  if invalidTicketGuardFires ticketArg then ⟨.error .invalidTicket, st, []⟩ else
  match env.resolveGuild (ticket.dataIn st).guildId with
  | none => ⟨.error .typeError, st, []⟩
  | some guild =>
    match env.resolveChannel guild st.options.parentId with
    | none => ⟨.error .invalidCategory, st, []⟩
    | some ticketCategory =>
      if ticketCategory.type ≠ "GUILD_CATEGORY" then ⟨.error .invalidCategory, st, []⟩ else
      match env.resolveChannel guild (ticket.dataIn st).channelId with
      | none => ⟨.error .typeError, st, []⟩
      | some channel =>
        let d := ticket.dataIn st
        let ticketPermissions :=
          { id := d.creatorId, allow := fullTicketPermissionList, deny := [] } ::
          { id := guild.everyoneRoleId, allow := [], deny := ["VIEW_CHANNEL"] } ::
          staffPermissionOverwrites env guild (st.options.staffRoles.getD [])
        let raw2 :=
          match jsIndexOf st.rawTickets ticket.dataRef with
          | some i => st.rawTickets.set i ticket.dataRef
          | none => st.rawTickets
        let st2 := { st with
          heap := st.heap.set ticket.dataRef { d with status := "open" }
          tickets := collSet st.tickets d.number ticket.dataRef
          rawTickets := raw2 }
        let stored := st2.currentRecords
        ⟨.ok ⟨ticket.dataRef⟩,
         { st2 with store := stored },
         [.channelEdit channel.id ("ticket-" ++ toString d.number)
            none (some ticketPermissions),
          .fileWrite stored,
          .emitEvent "ticketReopened"]⟩

/-- `renameTicket(ticket, newName)` (lines 333-350): renames the remote
channel to `<newName>-<number>`; no local record change, no persistence. -/
def renameTicket (env : Env) (st : ManagerState) (ticketArg : JsArg)
    (ticket : TextTicket) (newName : String) : OpResult TextTicket :=
  if st.ready = false then ⟨.error .notReady, st, []⟩ else
  if invalidTicketGuardFires ticketArg then ⟨.error .invalidTicket, st, []⟩ else
  match env.resolveGuild (ticket.dataIn st).guildId with
  | none => ⟨.error .typeError, st, []⟩
  | some guild =>
    match env.resolveChannel guild (ticket.dataIn st).channelId with
    | none => ⟨.error .typeError, st, []⟩
    | some channel =>
      ⟨.ok ticket, st,
       [.channelEdit channel.id (newName ++ "-" ++ toString (ticket.dataIn st).number)
          none none,
        .emitEvent "ticketRenamed"]⟩

/-- `deleteTicket(ticket)` (lines 302-325): deletes the remote channel,
filters out every record whose `channelId` matches, persists, removes the
entity's key from the index and returns `true`. -/
def deleteTicket (env : Env) (st : ManagerState) (ticketArg : JsArg)
    (ticket : TextTicket) : OpResult Bool :=
  if st.ready = false then ⟨.error .notReady, st, []⟩ else
  if invalidTicketGuardFires ticketArg then ⟨.error .invalidTicket, st, []⟩ else
  match env.resolveGuild (ticket.dataIn st).guildId with
  | none => ⟨.error .typeError, st, []⟩
  | some guild =>
    match env.resolveChannel guild (ticket.dataIn st).channelId with
    | none => ⟨.error .typeError, st, []⟩
    | some channel =>
      let d := ticket.dataIn st
      let raw2 := st.rawTickets.filter
        (fun r => !((st.heap.getD r default).channelId == d.channelId))
      let st2 := { st with rawTickets := raw2 }
      let stored := st2.currentRecords
      ⟨.ok true,
       { st2 with store := stored, tickets := collDelete st.tickets d.number },
       [.channelDelete channel.id,
        .fileWrite stored,
        .emitEvent "ticketDeleted"]⟩

/-- Truthiness and `instanceof Discord.Client` status of the `client`
constructor argument. -/
structure JsClientArg where
  truthy : Bool
  isClientInstance : Bool
deriving Repr, DecidableEq

/-- JS `b instanceof Discord.Client` for a Boolean primitive `b`: a primitive
is never an instance of a class. This is the right operand shape of the check
`!client instanceof Discord.Client` on line 41, where unary `!` binds tighter
than `instanceof`. -/
def jsBoolInstanceofClient (_b : Bool) : Bool :=
  false

/-- Truthiness of the required fields of the `options` constructor argument
(`options?.parentId`, `options?.storage`). -/
structure ConstructorOptions where
  parentIdTruthy : Bool
  storageTruthy : Bool
deriving Repr, DecidableEq

/-- The default parameter value of line 37: `parentId: null` and
`storage: undefined` are both falsy. -/
def defaultConstructorOptions : ConstructorOptions :=
  { parentIdTruthy := false, storageTruthy := false }

/-- The synchronous prefix of the constructor (lines 37-81): the thrown error,
if any, and whether `this._init()` — the only step performing I/O — was
reached. The outer `Option` of `optionsArg` is `undefined` (default parameter
applies); the inner one distinguishes a falsy `options` value from an object. -/
def constructorRun (client : JsClientArg) (optionsArg : Option (Option ConstructorOptions)) :
    Option JsError × Bool :=
  let options : Option ConstructorOptions :=
    match optionsArg with
    | none => some defaultConstructorOptions
    | some o => o
  if (!client.truthy) || jsBoolInstanceofClient (!client.truthy) then
    (some .invalidClient, false)
  else
    match options with
    | none => (some .missingOptions, false)
    | some o =>
      if (!o.parentIdTruthy) || (!o.storageTruthy) then (some .missingOptions, false)
      else (none, true)

/-- A parsed JSON value as far as `_loadAllTickets` inspects it:
`Array.isArray` either holds (an array of raw records) or does not. -/
inductive JsonValue where
  | array (elems : List RawTextTicketData)
  | nonArray
deriving Repr, DecidableEq

/-- Result of `_loadAllTickets`: the returned record list, the storage file
content afterwards, and the file writes performed. -/
structure LoadResult where
  records : List RawTextTicketData
  fileAfter : Option String
  effects : List Effect
deriving Repr, DecidableEq

/-- `_loadAllTickets()` (lines 107-143) over the storage file content
(`none` = file does not exist) and an abstract `JSON.parse` (`none` = the
parse throws). A missing file is created with `JSON.stringify(new Array())`,
i.e. the text `"[]"`; a parse failure or a non-array value yields `[]` with
no error. -/
def _loadAllTickets (parse : String → Option JsonValue) (file : Option String) :
    LoadResult :=
  match file with
  | none => ⟨[], some "[]", [.rawFileWrite "[]"]⟩
  | some content =>
    match parse content with
    | none => ⟨[], some content, []⟩
    | some .nonArray => ⟨[], some content, []⟩
    | some (.array storageTickets) => ⟨storageTickets, some content, []⟩

/-- The `for(const rawTicket of this._rawTickets)` loop of `_init`
(lines 92-98): index each entity by its ticket number. -/
def buildIndex (records : List RawTextTicketData) : List (Nat × Nat) :=
  (List.range records.length).foldl
    (fun m r => collSet m (records.getD r default).number r) []

/-- `_init()` (lines 86-102) after `_loadAllTickets` returned `records`:
the loaded records become the heap and `this._rawTickets`, each is wrapped
into an entity indexed by number, and `ready` becomes true. -/
def _initState (opts : ManagerOptions) (records : List RawTextTicketData) :
    ManagerState :=
  { heap := records
    rawTickets := List.range records.length
    tickets := buildIndex records
    store := records
    ready := true
    options := opts }

/-! ### Concrete fixtures for witnesses and counterexamples -/

def testOptions : ManagerOptions :=
  { channelTopic := some " ", closedParentId := "cat-closed", parentId := "cat-open",
    staffRoles := some ["staff1"], storage := "tickets.json" }

def rec1 : RawTextTicketData :=
  { channelId := "ch1", creatorId := "u1", guildId := "g1", number := 1,
    participants := [], status := "open" }

def testState : ManagerState :=
  { heap := [rec1], rawTickets := [0], tickets := [(1, 0)], store := [rec1],
    ready := true, options := testOptions }

def notReadyState : ManagerState :=
  { heap := [rec1], rawTickets := [0], tickets := [(1, 0)], store := [rec1],
    ready := false, options := testOptions }

def testGuild : Guild := { id := "g1", everyoneRoleId := "evr" }

def testEnv : Env :=
  { resolveGuild := fun g => if g = "g1" then some testGuild else none
    resolveUser := fun u => if u = "u1" then some "u1" else none
    resolveMember := fun g u =>
      if g.id = "g1" then (if u = "u1" then some "u1" else none) else none
    resolveChannel := fun _ cid =>
      if cid = "cat-open" then some { id := "cat-open", type := "GUILD_CATEGORY" }
      else if cid = "cat-closed" then some { id := "cat-closed", type := "GUILD_CATEGORY" }
      else if cid = "ch1" then some { id := "ch1", type := "GUILD_TEXT" }
      else none
    resolveRole := fun _ rid => if rid = "staff1" then some "staff1" else none
    newChannelId := "ch2" }

def envGuildUnresolvable : Env :=
  { resolveGuild := fun _ => none
    resolveUser := fun u => if u = "u1" then some "u1" else none
    resolveMember := fun _ _ => none
    resolveChannel := fun _ _ => none
    resolveRole := fun _ _ => none
    newChannelId := "ch9" }

/-! ### Helper lemmas -/

theorem getD_append_of_lt {α : Type} :
    ∀ (l l2 : List α) (r : Nat) (d : α), r < l.length →
      (l ++ l2).getD r d = l.getD r d
  | _ :: _, _, 0, _, _ => rfl
  | _ :: l, l2, r + 1, d, h =>
    getD_append_of_lt l l2 r d (Nat.lt_of_succ_lt_succ h)

theorem getD_append_len {α : Type} :
    ∀ (l : List α) (x d : α), (l ++ [x]).getD l.length d = x
  | [], _, _ => rfl
  | _ :: l, x, d => getD_append_len l x d

theorem getD_set_self {α : Type} :
    ∀ (l : List α) (r : Nat) (v d : α), r < l.length →
      (l.set r v).getD r d = v
  | _ :: _, 0, _, _, _ => rfl
  | _ :: l, r + 1, v, d, h =>
    getD_set_self l r v d (Nat.lt_of_succ_lt_succ h)

theorem getD_set_ne {α : Type} :
    ∀ (l : List α) (r r2 : Nat) (v d : α), r ≠ r2 →
      (l.set r v).getD r2 d = l.getD r2 d
  | [], _, _, _, _, _ => rfl
  | _ :: _, 0, 0, _, _, h => absurd rfl h
  | _ :: _, 0, _ + 1, _, _, _ => rfl
  | _ :: _, _ + 1, 0, _, _, _ => rfl
  | _ :: l, r + 1, r2 + 1, v, d, h =>
    getD_set_ne l r r2 v d (fun hr => h (by rw [hr]))

/-- Writing a reference back at the index `indexOf` found it at leaves the
reference list unchanged (and a miss, JS `arr[-1] = x`, changes no element). -/
theorem jsIndexOf_set_eq :
    ∀ (l : List Nat) (x : Nat),
      (match jsIndexOf l x with
       | some i => l.set i x
       | none => l) = l := by
  intro l x
  induction l with
  | nil => rfl
  | cons y ys ih =>
    by_cases hyx : y = x
    · simp [jsIndexOf, hyx]
    · simp only [jsIndexOf, if_neg hyx]
      cases h : jsIndexOf ys x with
      | none => simp
      | some i =>
        show y :: ys.set i x = y :: ys
        rw [h] at ih
        exact congrArg (fun l2 => y :: l2) ih

theorem headNumber_insertDesc (x : RawTextTicketData) (l : List RawTextTicketData) :
    headNumber (insertDescByNumber x l) = max x.number (headNumber l) := by
  cases l with
  | nil => simp [insertDescByNumber, headNumber]
  | cons y ys =>
    by_cases h : y.number ≤ x.number
    · simp [insertDescByNumber, h, headNumber, Nat.max_eq_left h]
    · have h2 : x.number ≤ y.number := Nat.le_of_lt (Nat.lt_of_not_le h)
      simp [insertDescByNumber, h, headNumber, Nat.max_eq_right h2]

/-- The head of the descending sort carries the maximal `number`. -/
theorem headNumber_sortDesc (l : List RawTextTicketData) :
    headNumber (sortDescByNumber l) = maxNumber l := by
  induction l with
  | nil => rfl
  | cons x xs ih =>
    simp only [sortDescByNumber, List.foldr] at ih ⊢
    rw [headNumber_insertDesc, ih]
    rfl

theorem maxNumber_nil : maxNumber [] = 0 := rfl

/-- Mapping a pointwise-updated function over a duplicate-free reference list
changes exactly the position of the updated reference. -/
theorem map_update_nodup {β : Type} (f : Nat → β) (ref : Nat) (v : β) (d : β) :
    ∀ (raw : List Nat), raw.Nodup → ref ∈ raw →
      ∃ i, i < raw.length ∧
        raw.map (fun r => if r = ref then v else f r) = (raw.map f).set i v ∧
        (raw.map f).getD i d = f ref := by
  intro raw
  induction raw with
  | nil => intro _ h; cases h
  | cons a as ih =>
    intro hnd hmem
    by_cases ha : a = ref
    · refine ⟨0, Nat.succ_pos _, ?_, by simp [ha]⟩
      subst ha
      have hnotin : a ∉ as := (List.nodup_cons.mp hnd).1
      simp only [List.map, List.set, if_pos rfl]
      congr 1
      apply List.map_congr_left
      intro r hr
      have : r ≠ a := fun hra => hnotin (hra ▸ hr)
      simp [this]
    · have hmem2 : ref ∈ as := by
        cases List.mem_cons.mp hmem with
        | inl h => exact absurd h.symm ha
        | inr h => exact h
      obtain ⟨i, hi, heq, hget⟩ := ih (List.nodup_cons.mp hnd).2 hmem2
      refine ⟨i + 1, Nat.succ_lt_succ hi, ?_, by simpa using hget⟩
      simp only [List.map, List.set, if_neg ha]
      rw [heq]

/-! ### Claim theorems -/

/-- C1 (amended): while `ready` is false, each of the five async operations —
`createTicket`, `closeTicket`, `reopenTicket`, `renameTicket`,
`deleteTicket` — throws the "not ready" error as its first step, leaves the
state unchanged and performs no I/O (no remote call, no store write);
`checkDoubleTickets`, by contrast, performs no readiness check (see the
counterexample). -/
theorem notReady_blocks_mutating_ops (env : Env) (st : ManagerState)
    (arg : JsArg) (t : TextTicket) (g u newName : String) (h : st.ready = false) :
    createTicket env st g u = ⟨.error .notReady, st, []⟩ ∧
    closeTicket env st arg t = ⟨.error .notReady, st, []⟩ ∧
    reopenTicket env st arg t = ⟨.error .notReady, st, []⟩ ∧
    renameTicket env st arg t newName = ⟨.error .notReady, st, []⟩ ∧
    deleteTicket env st arg t = ⟨.error .notReady, st, []⟩ := by
  refine ⟨?_, ?_, ?_, ?_, ?_⟩ <;>
    simp [createTicket, closeTicket, reopenTicket, renameTicket, deleteTicket, h]

/-- Witness for C1: the not-ready rejection at a concrete state. -/
theorem notReady_blocks_mutating_ops_witness :
    notReadyState.ready = false ∧
    createTicket testEnv notReadyState "g1" "u1" = ⟨.error .notReady, notReadyState, []⟩ :=
  ⟨rfl, (notReady_blocks_mutating_ops testEnv notReadyState ⟨true, true⟩ ⟨0⟩
      "g1" "u1" "n" rfl).1⟩

/-- C1 counterexample: `checkDoubleTickets` does not fail with the "not
ready" error when invoked before the initial load set `ready`: on a state
with `ready = false` it just returns its Boolean result. -/
theorem checkDoubleTickets_ignores_ready_cx :
    notReadyState.ready = false ∧
    (checkDoubleTicketsOp notReadyState "g1" "u1").result = .ok true ∧
    (checkDoubleTicketsOp notReadyState "g1" "u1").result ≠ .error .notReady := by
  refine ⟨rfl, rfl, ?_⟩
  intro h
  exact Except.noConfusion h

/-- `(!ticket) instanceof TextTicket` is false for every argument value. -/
theorem invalidTicketGuardFires_false (v : JsArg) : invalidTicketGuardFires v = false := rfl

/-- C9: the guard `!ticket instanceof TextTicket` applies the negation to the
wrong operand, so the condition is false for every argument value — falsy
values and plain objects included — and `closeTicket`, `deleteTicket`,
`renameTicket`, `reopenTicket` never throw the "invalid ticket" error. -/
theorem invalidTicket_branch_unreachable (v : JsArg) (env : Env)
    (st : ManagerState) (t : TextTicket) (newName : String) :
    invalidTicketGuardFires v = false ∧
    (closeTicket env st v t).result ≠ .error .invalidTicket ∧
    (deleteTicket env st v t).result ≠ .error .invalidTicket ∧
    (renameTicket env st v t newName).result ≠ .error .invalidTicket ∧
    (reopenTicket env st v t).result ≠ .error .invalidTicket := by
  refine ⟨rfl, ?_, ?_, ?_, ?_⟩
  · unfold closeTicket
    simp only [invalidTicketGuardFires_false]
    repeat' split
    all_goals simp_all
  · unfold deleteTicket
    simp only [invalidTicketGuardFires_false]
    repeat' split
    all_goals simp_all
  · unfold renameTicket
    simp only [invalidTicketGuardFires_false]
    repeat' split
    all_goals simp_all
  · unfold reopenTicket
    simp only [invalidTicketGuardFires_false]
    repeat' split
    all_goals simp_all

/-- Witness for C9: the guard accepts even a falsy non-instance argument. -/
theorem invalidTicket_branch_unreachable_witness :
    invalidTicketGuardFires { truthy := false, isTextTicketInstance := false } = false ∧
    (closeTicket testEnv testState { truthy := false, isTextTicketInstance := false }
      ⟨0⟩).result ≠ .error .invalidTicket :=
  ⟨(invalidTicket_branch_unreachable { truthy := false, isTextTicketInstance := false }
      testEnv testState ⟨0⟩ "n").1,
   (invalidTicket_branch_unreachable { truthy := false, isTextTicketInstance := false }
      testEnv testState ⟨0⟩ "n").2.1⟩

/-- C8 counterexample: a truthy non-Client value — a plain object — is "no
valid client handle", yet construction with it and complete options throws
nothing and proceeds to `_init` (which performs I/O): the `instanceof` half
of the client check on line 41 applies `instanceof` to the Boolean
`!client`, which is always false. -/
theorem constructor_accepts_invalid_client_cx :
    constructorRun { truthy := true, isClientInstance := false }
      (some (some { parentIdTruthy := true, storageTruthy := true })) = (none, true) := rfl

/-- C8 (amended): construction throws synchronously, before reaching `_init`
(the only step performing I/O), exactly when the client argument is falsy or
the options argument is absent/falsy or lacks a truthy `parentId` or
`storage`; a truthy non-Client value passes the client check because the
negation is applied to the wrong operand of `instanceof`. -/
theorem constructor_throw_iff (client : JsClientArg)
    (optionsArg : Option (Option ConstructorOptions)) :
    ((constructorRun client optionsArg).1.isSome ↔
      (client.truthy = false ∨
        (match optionsArg with
         | none => True
         | some none => True
         | some (some o) => o.parentIdTruthy = false ∨ o.storageTruthy = false))) ∧
    ((constructorRun client optionsArg).1.isSome →
      (constructorRun client optionsArg).2 = false) := by
  obtain ⟨ct, ci⟩ := client
  rcases optionsArg with _ | (_ | ⟨pt, sg⟩)
  · cases ct <;> simp [constructorRun, defaultConstructorOptions, jsBoolInstanceofClient]
  · cases ct <;> simp [constructorRun, defaultConstructorOptions, jsBoolInstanceofClient]
  · cases ct <;> cases pt <;> cases sg <;>
      simp [constructorRun, defaultConstructorOptions, jsBoolInstanceofClient]

/-- Witness for C8: a falsy client throws, and the throw happens with
`_init` (the I/O step) unreached. -/
theorem constructor_throw_iff_witness :
    (constructorRun { truthy := false, isClientInstance := false }
      (some (some { parentIdTruthy := true, storageTruthy := true }))).1.isSome = true ∧
    (constructorRun { truthy := false, isClientInstance := false }
      (some (some { parentIdTruthy := true, storageTruthy := true }))).2 = false :=
  ⟨by decide,
   (constructor_throw_iff { truthy := false, isClientInstance := false }
      (some (some { parentIdTruthy := true, storageTruthy := true }))).2 (by decide)⟩

/-- C6: at load time a missing storage file is created containing the empty
array text `"[]"` and the manager starts with zero tickets; an existing file
whose content does not parse, or parses to a non-array value, yields zero
tickets with no error raised (`_loadAllTickets` is total: the JS
`try`/`catch` swallows the parse failure and returns `[]`). -/
theorem load_missing_or_corrupt_yields_empty
    (parse : String → Option JsonValue) (opts : ManagerOptions) :
    (_loadAllTickets parse none = ⟨[], some "[]", [.rawFileWrite "[]"]⟩ ∧
      (_initState opts (_loadAllTickets parse none).records).rawTickets = [] ∧
      (_initState opts (_loadAllTickets parse none).records).tickets = []) ∧
    (∀ content, parse content = none →
      _loadAllTickets parse (some content) = ⟨[], some content, []⟩ ∧
      (_initState opts (_loadAllTickets parse (some content)).records).rawTickets = [] ∧
      (_initState opts (_loadAllTickets parse (some content)).records).tickets = []) ∧
    (∀ content, parse content = some .nonArray →
      _loadAllTickets parse (some content) = ⟨[], some content, []⟩ ∧
      (_initState opts (_loadAllTickets parse (some content)).records).rawTickets = [] ∧
      (_initState opts (_loadAllTickets parse (some content)).records).tickets = []) := by
  refine ⟨⟨rfl, rfl, rfl⟩, ?_, ?_⟩
  · intro content h
    simp [_loadAllTickets, h, _initState, buildIndex]
  · intro content h
    simp [_loadAllTickets, h, _initState, buildIndex]

/-- Witness for C6: a concrete parser that rejects the content `"corrupt"`
yields zero tickets. -/
theorem load_missing_or_corrupt_yields_empty_witness :
    (fun _ : String => (none : Option JsonValue)) "corrupt" = none ∧
    _loadAllTickets (fun _ => none) (some "corrupt") = ⟨[], some "corrupt", []⟩ :=
  ⟨rfl, ((load_missing_or_corrupt_yields_empty (fun _ => none) testOptions).2.1
      "corrupt" rfl).1⟩

/-- C7: the claim is right about the intent — the very next line checks
`!resolvedGuild || !resolvedUser || !resolvedMember` — but when the guild
itself does not resolve, line 234 evaluates
`resolvedGuild.members.resolve(resolvedUser)` on `null` first, so the call
fails with a TypeError and never reaches the "not resolvable" throw; a
failed user or member resolution does reach it. -/
theorem createTicket_unresolvable_guild_raises_typeError :
    (createTicket envGuildUnresolvable testState "gX" "u1").result = .error .typeError ∧
    (createTicket envGuildUnresolvable testState "gX" "u1").result ≠
      .error .notResolvable ∧
    (createTicket testEnv testState "g1" "uX").result = .error .notResolvable := by
  refine ⟨rfl, ?_, rfl⟩
  intro h
  rw [show (createTicket envGuildUnresolvable testState "gX" "u1").result
      = .error .typeError from rfl] at h
  exact absurd (Except.error.inj h) (by decide)

/-- Reduction of `createTicket` on its success path: every resolution
succeeds and the configured parent is a category channel. -/
theorem createTicket_ok (env : Env) (st : ManagerState) (g u : String)
    (rg : Guild) (uid mid : String) (cat : Channel)
    (hready : st.ready = true)
    (hg : env.resolveGuild g = some rg)
    (hu : env.resolveUser u = some uid)
    (hm : env.resolveMember rg uid = some mid)
    (hcat : env.resolveChannel rg st.options.parentId = some cat)
    (htype : cat.type = "GUILD_CATEGORY") :
    createTicket env st g u =
      (let guildTickets := st.currentRecords.filter (fun r => r.guildId == rg.id)
       let newNumber :=
         (if guildTickets.length > 0 then headNumber (sortDescByNumber guildTickets)
          else 0) + 1
       let newRecord : RawTextTicketData :=
         { channelId := env.newChannelId, creatorId := uid, guildId := rg.id,
           number := newNumber, participants := [], status := "open" }
       let newRef := st.heap.length
       let st2 := { st with
         heap := st.heap ++ [newRecord]
         rawTickets := st.rawTickets ++ [newRef] }
       let stored := st2.currentRecords
       ⟨.ok ⟨newRef⟩,
        { st2 with store := stored, tickets := collSet st2.tickets newNumber newRef },
        [.channelCreate ("ticket-" ++ toString newNumber) cat.id
           (st.options.channelTopic.getD "")
           ({ id := mid, allow := fullTicketPermissionList, deny := [] } ::
            { id := rg.everyoneRoleId, allow := [], deny := ["VIEW_CHANNEL"] } ::
            staffPermissionOverwrites env rg (st.options.staffRoles.getD [])),
         .fileWrite stored,
         .emitEvent "ticketCreated"]⟩) := by
  simp [createTicket, hready, hg, hu, hm, hcat, htype]

/-- C2: a successful `createTicket` assigns the new ticket the number
`1 + max` over the numbers of the existing records whose `guildId` equals
the resolved guild's id, and `1` when that guild has no record. -/
theorem createTicket_number_correct (env : Env) (st : ManagerState)
    (g u : String) (rg : Guild) (uid mid : String) (cat : Channel)
    (hready : st.ready = true)
    (hg : env.resolveGuild g = some rg)
    (hu : env.resolveUser u = some uid)
    (hm : env.resolveMember rg uid = some mid)
    (hcat : env.resolveChannel rg st.options.parentId = some cat)
    (htype : cat.type = "GUILD_CATEGORY") :
    (createTicket env st g u).result = .ok ⟨st.heap.length⟩ ∧
    TextTicket.numberIn (createTicket env st g u).state ⟨st.heap.length⟩ =
      1 + maxNumber (st.currentRecords.filter (fun r => r.guildId == rg.id)) ∧
    (st.currentRecords.filter (fun r => r.guildId == rg.id) = [] →
      TextTicket.numberIn (createTicket env st g u).state ⟨st.heap.length⟩ = 1) := by
  rw [createTicket_ok env st g u rg uid mid cat hready hg hu hm hcat htype]
  refine ⟨rfl, ?_, ?_⟩
  · show ((st.heap ++ [_]).getD st.heap.length default).number = _
    rw [getD_append_len]
    by_cases hnil : st.currentRecords.filter (fun r => r.guildId == rg.id) = []
    · simp [hnil, maxNumber]
    · have hlen : 0 < (st.currentRecords.filter (fun r => r.guildId == rg.id)).length :=
        List.length_pos.mpr hnil
      simp [hlen, headNumber_sortDesc, Nat.add_comm]
  · intro hnil
    show ((st.heap ++ [_]).getD st.heap.length default).number = 1
    rw [getD_append_len]
    simp [hnil]

/-- Witness for C2: creating a second ticket for guild `g1` (one record with
number `1` exists) succeeds. -/
theorem createTicket_number_correct_witness :
    testState.ready = true ∧
    testEnv.resolveGuild "g1" = some testGuild ∧
    testEnv.resolveUser "u1" = some "u1" ∧
    testEnv.resolveMember testGuild "u1" = some "u1" ∧
    testEnv.resolveChannel testGuild testState.options.parentId =
      some { id := "cat-open", type := "GUILD_CATEGORY" } ∧
    TextTicket.numberIn (createTicket testEnv testState "g1" "u1").state
        ⟨testState.heap.length⟩ =
      1 + maxNumber (testState.currentRecords.filter (fun r => r.guildId == testGuild.id)) :=
  ⟨rfl, rfl, rfl, rfl, rfl,
   (createTicket_number_correct testEnv testState "g1" "u1" testGuild "u1" "u1"
      { id := "cat-open", type := "GUILD_CATEGORY" } rfl rfl rfl rfl rfl rfl).2.1⟩

/-- C3: after a successful `createTicket`, the store file's parsed content is
exactly the records present before the call plus one appended record whose
status is `"open"` and whose participants list is empty. -/
theorem createTicket_store_appends (env : Env) (st : ManagerState)
    (g u : String) (rg : Guild) (uid mid : String) (cat : Channel)
    (hready : st.ready = true)
    (hg : env.resolveGuild g = some rg)
    (hu : env.resolveUser u = some uid)
    (hm : env.resolveMember rg uid = some mid)
    (hcat : env.resolveChannel rg st.options.parentId = some cat)
    (htype : cat.type = "GUILD_CATEGORY")
    (hsync : st.store = st.currentRecords)
    (hrefs : ∀ r ∈ st.rawTickets, r < st.heap.length) :
    ∃ newRec : RawTextTicketData,
      (createTicket env st g u).result = .ok ⟨st.heap.length⟩ ∧
      (createTicket env st g u).state.store = st.store ++ [newRec] ∧
      newRec.status = "open" ∧ newRec.participants = [] := by
  rw [createTicket_ok env st g u rg uid mid cat hready hg hu hm hcat htype]
  refine ⟨{ channelId := env.newChannelId, creatorId := uid, guildId := rg.id,
            number := (if (st.currentRecords.filter
                (fun r => r.guildId == rg.id)).length > 0
              then headNumber (sortDescByNumber (st.currentRecords.filter
                (fun r => r.guildId == rg.id)))
              else 0) + 1,
            participants := [], status := "open" }, rfl, ?_, rfl, rfl⟩
  dsimp only [ManagerState.currentRecords]
  rw [List.map_append]
  congr 1
  · rw [hsync]
    unfold ManagerState.currentRecords
    apply List.map_congr_left
    intro r hr
    exact getD_append_of_lt _ _ _ _ (hrefs r hr)
  · simp [getD_append_len]

/-- Witness for C3: at the concrete one-ticket state the store becomes the
old records plus one open record. -/
theorem createTicket_store_appends_witness :
    testState.store = testState.currentRecords ∧
    (∀ r ∈ testState.rawTickets, r < testState.heap.length) ∧
    ∃ newRec : RawTextTicketData,
      (createTicket testEnv testState "g1" "u1").result = .ok ⟨testState.heap.length⟩ ∧
      (createTicket testEnv testState "g1" "u1").state.store = testState.store ++ [newRec] ∧
      newRec.status = "open" ∧ newRec.participants = [] :=
  ⟨rfl, by decide,
   createTicket_store_appends testEnv testState "g1" "u1" testGuild "u1" "u1"
     { id := "cat-open", type := "GUILD_CATEGORY" } rfl rfl rfl rfl rfl rfl rfl
     (by decide)⟩

/-- Writing back a reference at the index `indexOf` found it at is a
no-op. -/
theorem set_self_of_jsIndexOf {l : List Nat} {x i : Nat}
    (h : jsIndexOf l x = some i) : l.set i x = l := by
  have h2 := jsIndexOf_set_eq l x
  rw [h] at h2
  exact h2

/-- Reduction of `closeTicket` on its success path: ready, the closed
category resolves, the ticket's guild and channel resolve. -/
theorem closeTicket_ok (env : Env) (st : ManagerState) (arg : JsArg)
    (t : TextTicket) (g0 : Guild) (cat ch : Channel)
    (hready : st.ready = true)
    (hg : env.resolveGuild (t.dataIn st).guildId = some g0)
    (hcat : env.resolveChannel g0 st.options.closedParentId = some cat)
    (hch : env.resolveChannel g0 (t.dataIn st).channelId = some ch) :
    closeTicket env st arg t =
      (let d := t.dataIn st
       let st2 := { st with
         heap := st.heap.set t.dataRef { d with status := "closed" }
         tickets := collSet st.tickets d.number t.dataRef }
       let stored := st2.currentRecords
       ⟨.ok ⟨t.dataRef⟩, { st2 with store := stored },
        [.channelEdit ch.id ("closed-" ++ toString d.number) (some cat.id)
           (some ({ id := d.creatorId, allow := [], deny := fullTicketPermissionList } ::
                  { id := g0.everyoneRoleId, allow := [], deny := ["VIEW_CHANNEL"] } ::
                  staffPermissionOverwrites env g0 (st.options.staffRoles.getD []))),
         .fileWrite stored,
         .emitEvent "ticketClosed"]⟩) := by
  cases hidx : jsIndexOf st.rawTickets t.dataRef with
  | none => simp [closeTicket, hready, hg, hcat, hch, invalidTicketGuardFires_false, hidx]
  | some i =>
    simp [closeTicket, hready, hg, hcat, hch, invalidTicketGuardFires_false, hidx,
      set_self_of_jsIndexOf hidx]

/-- Reduction of `reopenTicket` on its success path. -/
theorem reopenTicket_ok (env : Env) (st : ManagerState) (arg : JsArg)
    (t : TextTicket) (g0 : Guild) (cat ch : Channel)
    (hready : st.ready = true)
    (hg : env.resolveGuild (t.dataIn st).guildId = some g0)
    (hcat : env.resolveChannel g0 st.options.parentId = some cat)
    (htype : cat.type = "GUILD_CATEGORY")
    (hch : env.resolveChannel g0 (t.dataIn st).channelId = some ch) :
    reopenTicket env st arg t =
      (let d := t.dataIn st
       let st2 := { st with
         heap := st.heap.set t.dataRef { d with status := "open" }
         tickets := collSet st.tickets d.number t.dataRef }
       let stored := st2.currentRecords
       ⟨.ok ⟨t.dataRef⟩, { st2 with store := stored },
        [.channelEdit ch.id ("ticket-" ++ toString d.number) none
           (some ({ id := d.creatorId, allow := fullTicketPermissionList, deny := [] } ::
                  { id := g0.everyoneRoleId, allow := [], deny := ["VIEW_CHANNEL"] } ::
                  staffPermissionOverwrites env g0 (st.options.staffRoles.getD []))),
         .fileWrite stored,
         .emitEvent "ticketReopened"]⟩) := by
  cases hidx : jsIndexOf st.rawTickets t.dataRef with
  | none =>
    simp [reopenTicket, hready, hg, hcat, htype, hch, invalidTicketGuardFires_false, hidx]
  | some i =>
    simp [reopenTicket, hready, hg, hcat, htype, hch, invalidTicketGuardFires_false, hidx,
      set_self_of_jsIndexOf hidx]

/-- C4: closing an open ticket obtained from this manager sets the matching
record's status to `"closed"`, returns an entity with the ticket number of
the argument, and rewrites the store to the same records with only that one
status flipped — no record added or removed. -/
theorem closeTicket_flips_only_status (env : Env) (st : ManagerState)
    (arg : JsArg) (t : TextTicket) (g0 : Guild) (cat ch : Channel)
    (hready : st.ready = true)
    (hg : env.resolveGuild (t.dataIn st).guildId = some g0)
    (hcat : env.resolveChannel g0 st.options.closedParentId = some cat)
    (hch : env.resolveChannel g0 (t.dataIn st).channelId = some ch)
    (hopen : (t.dataIn st).status = "open")
    (hmem : t.dataRef ∈ st.rawTickets)
    (hnd : st.rawTickets.Nodup)
    (hvalid : t.dataRef < st.heap.length)
    (hsync : st.store = st.currentRecords) :
    (closeTicket env st arg t).result = .ok ⟨t.dataRef⟩ ∧
    ((closeTicket env st arg t).state.heap.getD t.dataRef default).status = "closed" ∧
    TextTicket.numberIn (closeTicket env st arg t).state ⟨t.dataRef⟩ =
      TextTicket.numberIn st t ∧
    (closeTicket env st arg t).state.store.length = st.store.length ∧
    ∃ i, i < st.store.length ∧
      st.store.getD i default = t.dataIn st ∧
      (closeTicket env st arg t).state.store =
        st.store.set i { t.dataIn st with status := "closed" } := by
  rw [closeTicket_ok env st arg t g0 cat ch hready hg hcat hch]
  have hpoint : st.rawTickets.map
        (fun r => (st.heap.set t.dataRef { t.dataIn st with status := "closed" }).getD r default)
      = st.rawTickets.map
        (fun r => if r = t.dataRef then { t.dataIn st with status := "closed" }
          else st.heap.getD r default) := by
    apply List.map_congr_left
    intro r _
    by_cases h : r = t.dataRef
    · subst h
      rw [if_pos rfl]
      exact getD_set_self _ _ _ _ hvalid
    · rw [if_neg h]
      exact getD_set_ne _ _ _ _ _ (fun hh => h hh.symm)
  obtain ⟨i, hi, heq, hget⟩ :=
    map_update_nodup (fun r => st.heap.getD r default) t.dataRef
      { t.dataIn st with status := "closed" } default st.rawTickets hnd hmem
  have hlenstore : st.store.length = st.rawTickets.length := by
    rw [hsync]
    exact List.length_map _ _
  refine ⟨rfl, ?_, ?_, ?_, i, ?_, ?_, ?_⟩
  · dsimp only
    rw [getD_set_self _ _ _ _ hvalid]
  · dsimp only [TextTicket.numberIn, TextTicket.dataIn]
    rw [getD_set_self _ _ _ _ hvalid]
  · dsimp only [ManagerState.currentRecords]
    rw [hsync]
    simp [ManagerState.currentRecords]
  · rw [hlenstore]
    exact hi
  · rw [hsync]
    exact hget
  · dsimp only [ManagerState.currentRecords]
    rw [hpoint, heq, hsync]
    rfl

/-- Witness for C4: closing the open ticket of the concrete one-ticket
state. -/
theorem closeTicket_flips_only_status_witness :
    (TextTicket.dataIn testState ⟨0⟩).status = "open" ∧
    (closeTicket testEnv testState ⟨true, true⟩ ⟨0⟩).result = .ok ⟨0⟩ :=
  ⟨rfl,
   (closeTicket_flips_only_status testEnv testState ⟨true, true⟩ ⟨0⟩ testGuild
      { id := "cat-closed", type := "GUILD_CATEGORY" } { id := "ch1", type := "GUILD_TEXT" }
      rfl rfl rfl rfl rfl (by decide) (by decide) (by decide) rfl).1⟩

/-- C10: `closeTicket` and `reopenTicket` mutate the status of the argument
ticket's record in place: the record cell referenced by the argument carries
the new status with every other field preserved, every other record cell and
the reference list (hence the record's position) are unchanged, and the
returned entity wraps the same record cell as the argument, so the change is
visible through the original argument entity. -/
theorem close_reopen_mutate_record_in_place
    (env : Env) (st : ManagerState) (arg : JsArg) (t : TextTicket)
    (g0 : Guild) (cat ch : Channel)
    (env2 : Env) (st2 : ManagerState) (arg2 : JsArg) (t2 : TextTicket)
    (g2 : Guild) (cat2 ch2 : Channel)
    (hready : st.ready = true)
    (hg : env.resolveGuild (t.dataIn st).guildId = some g0)
    (hcat : env.resolveChannel g0 st.options.closedParentId = some cat)
    (hch : env.resolveChannel g0 (t.dataIn st).channelId = some ch)
    (hvalid : t.dataRef < st.heap.length)
    (hready2 : st2.ready = true)
    (hg2 : env2.resolveGuild (t2.dataIn st2).guildId = some g2)
    (hcat2 : env2.resolveChannel g2 st2.options.parentId = some cat2)
    (htype2 : cat2.type = "GUILD_CATEGORY")
    (hch2 : env2.resolveChannel g2 (t2.dataIn st2).channelId = some ch2)
    (hvalid2 : t2.dataRef < st2.heap.length) :
    ((closeTicket env st arg t).result = .ok ⟨t.dataRef⟩ ∧
     TextTicket.dataIn (closeTicket env st arg t).state t =
       { t.dataIn st with status := "closed" } ∧
     (∀ r, r ≠ t.dataRef →
       (closeTicket env st arg t).state.heap.getD r default = st.heap.getD r default) ∧
     (closeTicket env st arg t).state.rawTickets = st.rawTickets) ∧
    ((reopenTicket env2 st2 arg2 t2).result = .ok ⟨t2.dataRef⟩ ∧
     TextTicket.dataIn (reopenTicket env2 st2 arg2 t2).state t2 =
       { t2.dataIn st2 with status := "open" } ∧
     (∀ r, r ≠ t2.dataRef →
       (reopenTicket env2 st2 arg2 t2).state.heap.getD r default =
         st2.heap.getD r default) ∧
     (reopenTicket env2 st2 arg2 t2).state.rawTickets = st2.rawTickets) := by
  rw [closeTicket_ok env st arg t g0 cat ch hready hg hcat hch,
    reopenTicket_ok env2 st2 arg2 t2 g2 cat2 ch2 hready2 hg2 hcat2 htype2 hch2]
  refine ⟨⟨rfl, ?_, ?_, rfl⟩, ⟨rfl, ?_, ?_, rfl⟩⟩
  · dsimp only [TextTicket.dataIn]
    exact getD_set_self _ _ _ _ hvalid
  · intro r hr
    dsimp only
    exact getD_set_ne _ _ _ _ _ (fun hh => hr hh.symm)
  · dsimp only [TextTicket.dataIn]
    exact getD_set_self _ _ _ _ hvalid2
  · intro r hr
    dsimp only
    exact getD_set_ne _ _ _ _ _ (fun hh => hr hh.symm)

/-- Witness for C10: closing the open ticket and reopening the closed ticket
of concrete states. -/
theorem close_reopen_mutate_record_in_place_witness :
    TextTicket.dataIn (closeTicket testEnv testState ⟨true, true⟩ ⟨0⟩).state ⟨0⟩ =
      { TextTicket.dataIn testState ⟨0⟩ with status := "closed" } ∧
    TextTicket.dataIn (reopenTicket testEnv testState ⟨true, true⟩ ⟨0⟩).state ⟨0⟩ =
      { TextTicket.dataIn testState ⟨0⟩ with status := "open" } :=
  ⟨(close_reopen_mutate_record_in_place testEnv testState ⟨true, true⟩ ⟨0⟩ testGuild
      { id := "cat-closed", type := "GUILD_CATEGORY" } { id := "ch1", type := "GUILD_TEXT" }
      testEnv testState ⟨true, true⟩ ⟨0⟩ testGuild
      { id := "cat-open", type := "GUILD_CATEGORY" } { id := "ch1", type := "GUILD_TEXT" }
      rfl rfl rfl rfl (by decide) rfl rfl rfl rfl rfl (by decide)).1.2.1,
   (close_reopen_mutate_record_in_place testEnv testState ⟨true, true⟩ ⟨0⟩ testGuild
      { id := "cat-closed", type := "GUILD_CATEGORY" } { id := "ch1", type := "GUILD_TEXT" }
      testEnv testState ⟨true, true⟩ ⟨0⟩ testGuild
      { id := "cat-open", type := "GUILD_CATEGORY" } { id := "ch1", type := "GUILD_TEXT" }
      rfl rfl rfl rfl (by decide) rfl rfl rfl rfl rfl (by decide)).2.2.1⟩

/-- Deleting a key from the collection leaves nothing to find under it. -/
theorem collGet_collDelete (m : List (Nat × Nat)) (k : Nat) :
    collGet (collDelete m k) k = none := by
  unfold collGet collDelete
  rw [List.find?_eq_none.mpr]
  · rfl
  · intro p hp
    have h2 := (List.mem_filter.mp hp).2
    simp only [Bool.not_eq_eq_eq_not, Bool.not_true] at h2
    simp [h2]

/-- Reduction of `deleteTicket` on its success path: ready, the ticket's
guild and channel resolve. -/
theorem deleteTicket_ok (env : Env) (st : ManagerState) (arg : JsArg)
    (t : TextTicket) (g0 : Guild) (ch : Channel)
    (hready : st.ready = true)
    (hg : env.resolveGuild (t.dataIn st).guildId = some g0)
    (hch : env.resolveChannel g0 (t.dataIn st).channelId = some ch) :
    deleteTicket env st arg t =
      (let d := t.dataIn st
       let st2 := { st with
         rawTickets := st.rawTickets.filter
           (fun r => !((st.heap.getD r default).channelId == d.channelId)) }
       let stored := st2.currentRecords
       ⟨.ok true,
        { st2 with store := stored, tickets := collDelete st.tickets d.number },
        [.channelDelete ch.id, .fileWrite stored, .emitEvent "ticketDeleted"]⟩) := by
  simp [deleteTicket, hready, hg, hch, invalidTicketGuardFires_false]

/-- C5: after a successful `deleteTicket`, no record with the ticket's
`channelId` remains in the in-memory list or in the store file, the entity is
absent from the number-keyed index, and the operation returns `true`. -/
theorem deleteTicket_removes_record (env : Env) (st : ManagerState)
    (arg : JsArg) (t : TextTicket) (g0 : Guild) (ch : Channel)
    (hready : st.ready = true)
    (hg : env.resolveGuild (t.dataIn st).guildId = some g0)
    (hch : env.resolveChannel g0 (t.dataIn st).channelId = some ch)
    (hidx : ∀ p ∈ st.tickets, p.2 = t.dataRef → p.1 = (t.dataIn st).number) :
    (deleteTicket env st arg t).result = .ok true ∧
    (∀ r ∈ (deleteTicket env st arg t).state.rawTickets,
      ((deleteTicket env st arg t).state.heap.getD r default).channelId ≠
        (t.dataIn st).channelId) ∧
    (∀ rec ∈ (deleteTicket env st arg t).state.store,
      rec.channelId ≠ (t.dataIn st).channelId) ∧
    collGet (deleteTicket env st arg t).state.tickets ((t.dataIn st).number) = none ∧
    (∀ p ∈ (deleteTicket env st arg t).state.tickets, p.2 ≠ t.dataRef) := by
  rw [deleteTicket_ok env st arg t g0 ch hready hg hch]
  dsimp only [ManagerState.currentRecords]
  refine ⟨rfl, ?_, ?_, collGet_collDelete _ _, ?_⟩
  · intro r hr
    have h2 := (List.mem_filter.mp hr).2
    simp only [Bool.not_eq_eq_eq_not, Bool.not_true, beq_eq_false_iff_ne, ne_eq] at h2
    exact h2
  · intro rec hrec
    obtain ⟨r, hr, hrec2⟩ := List.mem_map.mp hrec
    have h2 := (List.mem_filter.mp hr).2
    simp only [Bool.not_eq_eq_eq_not, Bool.not_true, beq_eq_false_iff_ne, ne_eq] at h2
    rw [← hrec2]
    exact h2
  · intro p hp hpe
    have hmem := List.mem_filter.mp hp
    have hkey := hidx p hmem.1 hpe
    have h2 := hmem.2
    rw [hkey] at h2
    simp at h2

/-- Witness for C5: deleting the single ticket of the concrete state. -/
theorem deleteTicket_removes_record_witness :
    (∀ p ∈ testState.tickets, p.2 = (0 : Nat) →
      p.1 = (TextTicket.dataIn testState ⟨0⟩).number) ∧
    (deleteTicket testEnv testState ⟨true, true⟩ ⟨0⟩).result = .ok true :=
  ⟨by decide,
   (deleteTicket_removes_record testEnv testState ⟨true, true⟩ ⟨0⟩ testGuild
      { id := "ch1", type := "GUILD_TEXT" } rfl rfl rfl (by decide)).1⟩

end DisGroupDev
